import Mathlib

/-!
Verification of `torch/utils/mobile_optimizer.py` (mobile model optimization
and lint wrapper) against its natural-language specification.

The Python module is a thin wrapper: `optimize_for_mobile` type-checks its
argument, delegates to the external engine `torch._C._jit_pass_optimize_for_mobile`
and wraps the result with `torch.jit._recursive.wrap_cpp_module`;
`generate_mobile_module_lints` type-checks and then builds a list of lint
dictionaries from the module's bundled-input attribute, named parameters and
exported operator names.

Python objects that a call could observably mutate (script modules, the shared
default selector dictionary) live in an explicit `World` store; every entry
point threads the world, so frame properties (non-mutation) are provable
statements rather than artifacts of purity.
-/

/-- Substring occurrence on character lists: `beginsWith l p` holds when `p`
is an initial segment of `l`.  Used to model Python's `pat in s` test. -/
def beginsWith : List Char → List Char → Bool
  | _, [] => true
  | [], _ :: _ => false
  | c :: cs, p :: ps => c == p && beginsWith cs ps

/-- `hasSub l p` is true when `p` occurs as a contiguous segment of `l`. -/
def hasSub : List Char → List Char → Bool
  | [], p => beginsWith [] p
  | c :: cs, p => beginsWith (c :: cs) p || hasSub cs p

/-- Python's substring test `pat in s`. -/
def containsSub (s pat : String) : Bool :=
  hasSub s.data pat.data

/-- The `LintCode` enumeration of `mobile_optimizer.py` (lines 10-14):
`BUNDLED_INPUT = 1`, `REQUIRES_GRAD = 2`, `DROPOUT = 3`, `BATCHNORM = 4`. -/
inductive LintCode where
  | BUNDLED_INPUT
  | REQUIRES_GRAD
  | DROPOUT
  | BATCHNORM
deriving DecidableEq, Repr

/-- Python `Enum.value` of a `LintCode` member. -/
def LintCode.value : LintCode → Nat
  | .BUNDLED_INPUT => 1
  | .REQUIRES_GRAD => 2
  | .DROPOUT => 3
  | .BATCHNORM => 4

/-- Python `Enum.name` of a `LintCode` member: its identifier string. -/
def LintCode.name : LintCode → String
  | .BUNDLED_INPUT => "BUNDLED_INPUT"
  | .REQUIRES_GRAD => "REQUIRES_GRAD"
  | .DROPOUT => "DROPOUT"
  | .BATCHNORM => "BATCHNORM"

/-- A Python dictionary with string keys and string values, kept in insertion
order.  The lint findings are dictionaries with keys `"name"` and `"message"`. -/
abbrev PyDict := List (String × String)

/-- Modelled from the spec: the operator-level computation graph is represented
by its list of referenced operator names (the only aspect the wrapper can
observe, via `torch.jit.export_opnames`). -/
abbrev Graph := List String

/-- Modelled from the spec: `MobileOptimizerType` pass identifiers (an
enumerated but extensible set, defined in `torch._C`, outside `src/`) are
represented by strings so that identifiers unknown to the engine exist. -/
abbrev MobileOptimizerType := String

/-- The `whitelist_optimizer_dict` argument: a Python dictionary from pass
identifier to enabled flag, in insertion order. -/
abbrev Selector := List (MobileOptimizerType × Bool)

/-- The observable data of a `torch.jit.ScriptModule`:
whether the object has a `_generate_bundled_inputs` attribute, its
`named_parameters()` as a list of (name, `requires_grad`) pairs, and its
compiled graph. -/
structure ModuleData where
  hasBundledInputsAttr : Bool
  namedParameters : List (String × Bool)
  graph : Graph
deriving DecidableEq, Repr, Inhabited

/-- Modelled from the spec: the Module Introspection API call
`torch.jit.export_opnames(module)` returns the module's referenced operator
names. -/
def export_opnames (m : ModuleData) : List String :=
  m.graph

/-- A Python value passed to one of the two entry points: either a handle to a
`ScriptModule` stored in the world, or any other object, of which only the
type name is relevant (it is printed into the `TypeError` message). -/
inductive PyValue where
  | scriptModule (id : Nat)
  | other (typeName : String)

/-- The store of mutable Python state visible to the wrapper: the script
modules by object id, the allocation counter, and the contents of the shared
default dictionary of `optimize_for_mobile`'s `whitelist_optimizer_dict`
parameter (Python evaluates the default `{}` once; a mutation of it would be
visible to every later call that omits the argument). -/
structure World where
  modules : List (Nat × ModuleData)
  nextId : Nat
  defaultSel : Selector
deriving Repr

/-- Well-formed world: every allocated module id is below the allocation
counter, so fresh ids are really fresh. -/
abbrev World.WF (w : World) : Prop :=
  ∀ p ∈ w.modules, p.1 < w.nextId

/-- The message of the `TypeError` raised by both entry points
(`'Got {}, but ScriptModule is expected.'.format(type(script_module))`). -/
def typeErrorMsg (typeName : String) : String :=
  s!"Got {typeName}, but ScriptModule is expected."

/-- A Python exception escaping the wrapper. -/
inductive PyError where
  | typeError (msg : String)
  | unsupportedPass (msg : String)
deriving DecidableEq, Repr

/-- Modelled from the spec: a graph rewrite removing training-only dropout
operators. -/
def removeDropout (g : Graph) : Graph :=
  g.filter (fun op => !(containsSub op "dropout"))

/-- Modelled from the spec: a graph rewrite folding batch normalization away
(the lint message promises `optimize_for_mobile` drops `batch_norm`). -/
def foldBatchNorm (g : Graph) : Graph :=
  g.filter (fun op => !(containsSub op "batch_norm"))

/-- Modelled from the spec: an operator-fusion rewrite merging adjacent
add and relu operators. -/
def fuseAddRelu : Graph → Graph
  | [] => []
  | [op] => [op]
  | op1 :: op2 :: rest =>
    if op1 == "aten::add" && op2 == "aten::relu" then
      "aten::add_relu" :: fuseAddRelu rest
    else
      op1 :: fuseAddRelu (op2 :: rest)

/-- Modelled from the spec: the engine's known passes, in their fixed
execution order (fusion before elimination-style rewrites). -/
def knownPasses : List (MobileOptimizerType × (Graph → Graph)) :=
  [("FUSE_ADD_RELU", fuseAddRelu),
   ("CONV_BN_FUSION", foldBatchNorm),
   ("REMOVE_DROPOUT", removeDropout)]

/-- The identifiers the engine recognizes. -/
def knownPassNames : List MobileOptimizerType :=
  knownPasses.map (fun pf => pf.1)

/-- Modelled from the spec: a pass runs when the selector is empty (empty
dictionary means "run all the optimizer pass") or maps the pass to `True`. -/
def passEnabled (sel : Selector) (p : MobileOptimizerType) : Bool :=
  sel.isEmpty || sel.lookup p == some true

/-- Modelled from the spec: the external engine
`torch._C._jit_pass_optimize_for_mobile` (outside `src/`).  It applies the
enabled passes to the module's graph in the fixed order of `knownPasses`,
ignores selector entries it does not recognize, and returns a rewritten
module without touching the input handle. -/
def jit_pass_optimize_for_mobile (d : ModuleData) (sel : Selector) : ModuleData :=
  { d with graph := knownPasses.foldl (fun g pf => if passEnabled sel pf.1 then pf.2 g else g) d.graph }

/-- Running every known pass unconditionally, the spec's reading of the
default selector ("run all available passes"). -/
def runAllPasses (d : ModuleData) : ModuleData :=
  { d with graph := knownPasses.foldl (fun g pf => pf.2 g) d.graph }

/-- Modelled from the spec: `torch.jit._recursive.wrap_cpp_module` (outside
`src/`) presents the engine's output as a newly constructed module: it
allocates a fresh object id for the rewritten module data. -/
def wrap_cpp_module (w : World) (d : ModuleData) : Nat × World :=
  (w.nextId, { w with modules := w.modules ++ [(w.nextId, d)], nextId := w.nextId + 1 })

/-- The observable outcome of a call to `optimize_for_mobile`: the returned
value (fresh module id) or the raised exception, the world after the call,
and the caller's selector dictionary as the call leaves it. -/
structure CallResult where
  ret : Except PyError Nat
  world : World
  selAfter : Selector

/-- `optimize_for_mobile(script_module, whitelist_optimizer_dict)`
(lines 16-31): raise `TypeError` unless the argument is a `ScriptModule`,
otherwise delegate to the engine and wrap the result.  The wrapper inspects
neither the selector nor the module beyond the `isinstance` check. -/
def optimize_for_mobile (w : World) (v : PyValue) (sel : Selector) : CallResult :=
  match v with
  | .other t => ⟨.error (.typeError (typeErrorMsg t)), w, sel⟩
  | .scriptModule id =>
    let d := (w.modules.lookup id).getD default
    let d2 := jit_pass_optimize_for_mobile d sel
    let r := wrap_cpp_module w d2
    ⟨.ok r.1, r.2, sel⟩

/-- A call of `optimize_for_mobile` that omits `whitelist_optimizer_dict`:
Python passes the shared default dictionary object. -/
def optimize_for_mobile_noSel (w : World) (v : PyValue) : CallResult :=
  optimize_for_mobile w v w.defaultSel

/-- The `BUNDLED_INPUT` finding appended when the module lacks the
`_generate_bundled_inputs` attribute (lines 48-50). -/
def bundledInputFinding : PyDict :=
  [("name", LintCode.BUNDLED_INPUT.name),
   ("message", "No bundled input, please add bundled inputs before saving the module using torch.utils.bundled_inputs.augment_model_with_bundled_inputs.")]

/-- The `REQUIRES_GRAD` finding appended for a parameter with
`requires_grad` set (lines 52-56). -/
def requiresGradFinding (paramName : String) : PyDict :=
  [("name", LintCode.REQUIRES_GRAD.name),
   ("message", s!"Param {paramName} requires grad, please set torch.no_grad() to reduce memory usage and improve computation speed during inference phase.")]

/-- The `DROPOUT` finding appended for an operator name containing
`"dropout"` (lines 60-62). -/
def dropoutFinding (opName : String) : PyDict :=
  [("name", LintCode.DROPOUT.name),
   ("message", s!"Operator {opName} exists, remember to call eval() before saving the module.")]

/-- The `BATCHNORM` finding appended for an operator name containing
`"batch_norm"` (lines 63-66). -/
def batchnormFinding (opName : String) : PyDict :=
  [("name", LintCode.BATCHNORM.name),
   ("message", s!"Operator {opName} exists, remember to call eval() before saving the module and call torch.utils.mobile_optimizer.optimize_for_mobile to drop batch_norm operator.")]

/-- The findings one iteration of the operator loop appends for a single
operator name: the dropout check, then the batch-norm check (lines 59-66). -/
def opFindings (opName : String) : List PyDict :=
  (if containsSub opName "dropout" then [dropoutFinding opName] else []) ++
  (if containsSub opName "batch_norm" then [batchnormFinding opName] else [])

/-- The lint list built by `generate_mobile_module_lints` after the type
check (lines 46-68): bundled-input check, then the parameter loop, then the
single interleaved loop over exported operator names. -/
def moduleLints (m : ModuleData) : List PyDict :=
  (if !m.hasBundledInputsAttr then [bundledInputFinding] else []) ++
  (m.namedParameters.filterMap (fun p => if p.2 then some (requiresGradFinding p.1) else none)) ++
  ((export_opnames m).flatMap opFindings)

/-- `generate_mobile_module_lints(script_module)` (lines 34-68): raise
`TypeError` unless the argument is a `ScriptModule`, then return the lint
list.  The call only reads the module, so it returns no world. -/
def generate_mobile_module_lints (w : World) (v : PyValue) : Except PyError (List PyDict) :=
  match v with
  | .other t => .error (.typeError (typeErrorMsg t))
  | .scriptModule id => .ok (moduleLints ((w.modules.lookup id).getD default))

/-- Scenario A module: no bundled-input support, one parameter `weight` with
`requires_grad` set, operators `aten::dropout` and `aten::linear`. -/
def mA : ModuleData :=
  { hasBundledInputsAttr := false,
    namedParameters := [("weight", true)],
    graph := ["aten::dropout", "aten::linear"] }

/-- A world holding the Scenario A module at object id 0, with the default
selector dictionary still empty. -/
def wA : World :=
  { modules := [(0, mA)], nextId := 1, defaultSel := [] }

/-- A module exercising the interleaved operator loop: one operator name
containing both `"dropout"` and `"batch_norm"`. -/
def mBoth : ModuleData :=
  { hasBundledInputsAttr := true,
    namedParameters := [],
    graph := ["custom::dropout_batch_norm"] }

/-- A world holding `mBoth` at object id 0. -/
def wBoth : World :=
  { modules := [(0, mBoth)], nextId := 1, defaultSel := [] }

/-- A second world holding the Scenario A module data at a different object
id, used to witness determinism across worlds. -/
def wB7 : World :=
  { modules := [(3, mBoth), (5, mA)], nextId := 6, defaultSel := [] }

/-! ## Helper lemmas about the module store -/

theorem lookup_append_left {l l2 : List (Nat × ModuleData)} {k : Nat} {d : ModuleData}
    (h : l.lookup k = some d) : (l ++ l2).lookup k = some d := by
  induction l with
  | nil => simp [List.lookup] at h
  | cons p t ih =>
    obtain ⟨a, b⟩ := p
    simp only [List.cons_append, List.lookup] at h ⊢
    cases hk : (k == a) with
    | true => rw [hk] at h; exact h
    | false => rw [hk] at h; exact ih h

theorem lookup_append_right {l l2 : List (Nat × ModuleData)} {k : Nat}
    (h : l.lookup k = none) : (l ++ l2).lookup k = l2.lookup k := by
  induction l with
  | nil => simp
  | cons p t ih =>
    obtain ⟨a, b⟩ := p
    simp only [List.cons_append, List.lookup] at h ⊢
    cases hk : (k == a) with
    | true => rw [hk] at h; exact Option.noConfusion h
    | false => rw [hk] at h; exact ih h

theorem mem_of_lookup_some {l : List (Nat × ModuleData)} {k : Nat} {d : ModuleData}
    (h : l.lookup k = some d) : (k, d) ∈ l := by
  induction l with
  | nil => simp [List.lookup] at h
  | cons p t ih =>
    obtain ⟨a, b⟩ := p
    simp only [List.lookup] at h
    cases hk : (k == a) with
    | true =>
      rw [hk] at h
      have hb : b = d := Option.some.inj h
      have ha : k = a := by simpa using hk
      subst hb; subst ha
      exact List.mem_cons_self _ _
    | false => rw [hk] at h; exact List.mem_cons_of_mem _ (ih h)

theorem lookup_none_of_bound {l : List (Nat × ModuleData)} {n : Nat}
    (h : ∀ p ∈ l, p.1 < n) : l.lookup n = none := by
  induction l with
  | nil => rfl
  | cons p t ih =>
    obtain ⟨a, b⟩ := p
    have ha : a < n := h (a, b) (List.mem_cons_self _ _)
    simp only [List.lookup]
    cases hk : (n == a) with
    | true =>
      have : n = a := by simpa using hk
      omega
    | false => exact ih (fun q hq => h q (List.mem_cons_of_mem _ hq))

/-! ## Claim theorems -/

/-- C1: for a module with no bundled-input support, exactly one named
parameter `weight` with `requires_grad` true, and operator set
`{"aten::dropout", "aten::linear"}`, `generate_mobile_module_lints` returns
exactly three findings, in the order: the `BUNDLED_INPUT` finding, then the
`REQUIRES_GRAD` finding naming `weight`, then the `DROPOUT` finding naming
`aten::dropout`. -/
theorem scenario_A_lint_order :
    generate_mobile_module_lints wA (.scriptModule 0)
      = .ok [bundledInputFinding, requiresGradFinding "weight", dropoutFinding "aten::dropout"] :=
  rfl

/-- C2: for every input that is not a `ScriptModule`, both
`optimize_for_mobile` and `generate_mobile_module_lints` raise the
`TypeError` of lines 27-28 and 43-44, and the failure happens before any
other effect: the world is returned unchanged and the selector untouched. -/
theorem non_module_inputs_raise_type_error (w : World) (t : String) (sel : Selector) :
    optimize_for_mobile w (.other t) sel = ⟨.error (.typeError (typeErrorMsg t)), w, sel⟩ ∧
    generate_mobile_module_lints w (.other t) = .error (.typeError (typeErrorMsg t)) :=
  ⟨rfl, rfl⟩

/-- C3, counterexample: `"NOT_A_PASS"` is a pass identifier the engine does
not recognize, yet `optimize_for_mobile` on a selector mapping it does not
fail with any `unsupportedPass` error: the call returns the fresh module
id 1.  The wrapper performs no selector validation at call time. -/
theorem unknown_pass_not_rejected :
    ("NOT_A_PASS" ∈ knownPassNames) = False ∧
    (optimize_for_mobile wA (.scriptModule 0) [("NOT_A_PASS", true)]).ret = .ok 1 := by
  constructor
  · simp [knownPassNames, knownPasses]
  · rfl

/-- C3, amended: for every module and every selector that maps some pass
identifier the engine does not recognize, `optimize_for_mobile` does not
fail at call time: the wrapper validates only the input type, hands the
selector to the engine unchanged, and returns the freshly wrapped module. -/
theorem unknown_pass_delegated (w : World) (id : Nat) (sel : Selector)
    (h : ∃ p ∈ sel, p.1 ∉ knownPassNames) :
    (optimize_for_mobile w (.scriptModule id) sel).ret = .ok w.nextId ∧
    (optimize_for_mobile w (.scriptModule id) sel).selAfter = sel :=
  ⟨rfl, rfl⟩

/-- Witness for `unknown_pass_delegated` at the Scenario A world and the
selector `{"NOT_A_PASS": True}`. -/
theorem unknown_pass_delegated_witness :
    (∃ p ∈ [("NOT_A_PASS", true)], p.1 ∉ knownPassNames) ∧
    (optimize_for_mobile wA (.scriptModule 0) [("NOT_A_PASS", true)]).ret = .ok wA.nextId ∧
    (optimize_for_mobile wA (.scriptModule 0) [("NOT_A_PASS", true)]).selAfter = [("NOT_A_PASS", true)] := by
  refine ⟨⟨("NOT_A_PASS", true), by simp, by simp [knownPassNames, knownPasses]⟩, ?_⟩
  exact unknown_pass_delegated wA 0 [("NOT_A_PASS", true)]
    ⟨("NOT_A_PASS", true), by simp, by simp [knownPassNames, knownPasses]⟩

/-- C9: `optimize_for_mobile` never mutates its selector argument: the
selector as the call leaves it equals the caller's selector, the shared
default dictionary in the world is unchanged by calls with or without an
explicit selector, and a call that omits the selector reads exactly the
shared default dictionary — so repeated omitted-selector calls keep seeing
the same (empty, hence run-every-pass) default. -/
theorem selector_never_mutated (w : World) (v : PyValue) (sel : Selector) :
    (optimize_for_mobile w v sel).selAfter = sel ∧
    (optimize_for_mobile w v sel).world.defaultSel = w.defaultSel ∧
    (optimize_for_mobile_noSel w v).world.defaultSel = w.defaultSel ∧
    optimize_for_mobile_noSel w v = optimize_for_mobile w v w.defaultSel := by
  refine ⟨?_, ?_, ?_, rfl⟩ <;> cases v <;> rfl

/-- The discriminant entry of a `REQUIRES_GRAD` finding. -/
theorem lookup_name_requiresGrad (n : String) :
    (requiresGradFinding n).lookup "name" = some LintCode.REQUIRES_GRAD.name :=
  rfl

/-- The parameter loop of `generate_mobile_module_lints` yields exactly one
`REQUIRES_GRAD` finding, in order, for each parameter with `requires_grad`
set, and its output consists only of such findings. -/
theorem filterMap_requiresGrad (l : List (String × Bool)) :
    (l.filterMap (fun p => if p.2 then some (requiresGradFinding p.1) else none)).filter
        (fun f => f.lookup "name" = some LintCode.REQUIRES_GRAD.name)
      = (l.filter (fun p => p.2)).map (fun p => requiresGradFinding p.1) := by
  induction l with
  | nil => rfl
  | cons p t ih =>
    cases hp : p.2 <;>
      simp [List.filterMap_cons, List.filter_cons, hp, ih, lookup_name_requiresGrad]

/-- The operator loop of `generate_mobile_module_lints` yields no
`REQUIRES_GRAD` finding. -/
theorem flatMap_opFindings_no_requiresGrad (l : List String) :
    (l.flatMap opFindings).filter
        (fun f => f.lookup "name" = some LintCode.REQUIRES_GRAD.name) = [] := by
  induction l with
  | nil => rfl
  | cons op t ih =>
    simp only [List.flatMap_cons, List.filter_append, ih, List.append_nil]
    unfold opFindings
    cases h1 : containsSub op "dropout" <;> cases h2 : containsSub op "batch_norm" <;>
      simp [dropoutFinding, batchnormFinding, List.lookup, LintCode.name]

/-- C4: for every module, the `REQUIRES_GRAD` findings of the lint list are
exactly one finding per named parameter whose `requires_grad` flag is true,
in parameter order, each built by `requiresGradFinding` (whose message names
that parameter); parameters with the flag unset contribute none, and no
other check emits a `REQUIRES_GRAD` finding. -/
theorem requires_grad_findings_exact (m : ModuleData) :
    (moduleLints m).filter (fun f => f.lookup "name" = some LintCode.REQUIRES_GRAD.name)
      = (m.namedParameters.filter (fun p => p.2)).map (fun p => requiresGradFinding p.1) := by
  unfold moduleLints
  rw [List.filter_append, List.filter_append, filterMap_requiresGrad,
    flatMap_opFindings_no_requiresGrad, List.append_nil]
  cases hb : m.hasBundledInputsAttr <;>
    simp [bundledInputFinding, List.lookup, LintCode.name]

/-- C5: after `optimize_for_mobile` on a well-formed world, the input
module's stored data — its graph topology, parameter set and operator set —
is unchanged, and the call returns a newly constructed module: a fresh
object id, distinct from the input module's id, that did not exist before
the call. -/
theorem optimize_preserves_input (w : World) (id : Nat) (sel : Selector) (d : ModuleData)
    (hWF : w.WF) (h : w.modules.lookup id = some d) :
    (optimize_for_mobile w (.scriptModule id) sel).world.modules.lookup id = some d ∧
    (optimize_for_mobile w (.scriptModule id) sel).ret = .ok w.nextId ∧
    w.nextId ≠ id ∧
    w.modules.lookup w.nextId = none := by
  have hlt : id < w.nextId := hWF (id, d) (mem_of_lookup_some h)
  refine ⟨?_, rfl, by omega, lookup_none_of_bound hWF⟩
  show (w.modules ++ [(w.nextId, _)]).lookup id = some d
  exact lookup_append_left h

/-- Witness for `optimize_preserves_input` at the Scenario A world. -/
theorem optimize_preserves_input_witness :
    wA.WF ∧ wA.modules.lookup 0 = some mA ∧
    ((optimize_for_mobile wA (.scriptModule 0) []).world.modules.lookup 0 = some mA ∧
     (optimize_for_mobile wA (.scriptModule 0) []).ret = .ok wA.nextId ∧
     wA.nextId ≠ 0 ∧
     wA.modules.lookup wA.nextId = none) :=
  ⟨by decide, rfl, optimize_preserves_input wA 0 [] mA (by decide) rfl⟩

/-- The data stored for the module `optimize_for_mobile` returns: the
engine's output on the input module's data and the given selector. -/
theorem optimize_output_data (w : World) (id : Nat) (sel : Selector) (d : ModuleData)
    (hWF : w.WF) (h : w.modules.lookup id = some d) :
    (optimize_for_mobile w (.scriptModule id) sel).world.modules.lookup w.nextId
      = some (jit_pass_optimize_for_mobile d sel) := by
  show (w.modules ++ [(w.nextId, jit_pass_optimize_for_mobile ((w.modules.lookup id).getD default) sel)]).lookup w.nextId = _
  rw [lookup_append_right (lookup_none_of_bound hWF), h]
  simp [List.lookup]

/-- C7: `optimize_for_mobile` is deterministic: two calls on modules holding
identical data, with identical selectors, store identical output module
data (in particular, topologically identical output graphs) at their
returned fresh ids. -/
theorem optimize_deterministic (w1 w2 : World) (id1 id2 : Nat) (sel : Selector) (d : ModuleData)
    (hWF1 : w1.WF) (hWF2 : w2.WF)
    (h1 : w1.modules.lookup id1 = some d) (h2 : w2.modules.lookup id2 = some d) :
    (optimize_for_mobile w1 (.scriptModule id1) sel).world.modules.lookup w1.nextId
      = (optimize_for_mobile w2 (.scriptModule id2) sel).world.modules.lookup w2.nextId ∧
    (optimize_for_mobile w1 (.scriptModule id1) sel).world.modules.lookup w1.nextId
      = some (jit_pass_optimize_for_mobile d sel) :=
  ⟨(optimize_output_data w1 id1 sel d hWF1 h1).trans
      (optimize_output_data w2 id2 sel d hWF2 h2).symm,
    optimize_output_data w1 id1 sel d hWF1 h1⟩

/-- Witness for `optimize_deterministic`: two distinct worlds holding the
Scenario A module data at different ids. -/
theorem optimize_deterministic_witness :
    wA.WF ∧ wB7.WF ∧ wA.modules.lookup 0 = some mA ∧ wB7.modules.lookup 5 = some mA ∧
    ((optimize_for_mobile wA (.scriptModule 0) [("REMOVE_DROPOUT", true)]).world.modules.lookup wA.nextId
       = (optimize_for_mobile wB7 (.scriptModule 5) [("REMOVE_DROPOUT", true)]).world.modules.lookup wB7.nextId ∧
     (optimize_for_mobile wA (.scriptModule 0) [("REMOVE_DROPOUT", true)]).world.modules.lookup wA.nextId
       = some (jit_pass_optimize_for_mobile mA [("REMOVE_DROPOUT", true)])) :=
  ⟨by decide, by decide, rfl, rfl,
    optimize_deterministic wA wB7 0 5 [("REMOVE_DROPOUT", true)] mA (by decide) (by decide) rfl rfl⟩

/-- C6: a call omitting the selector and a call passing the explicitly
empty selector are the same call (the Python default is the empty
dictionary), provided the shared default dictionary still holds its initial
empty value; and with the empty selector the engine runs every known pass
unconditionally. -/
theorem empty_selector_equiv_omitted (w : World) (v : PyValue) (d : ModuleData)
    (h : w.defaultSel = []) :
    optimize_for_mobile_noSel w v = optimize_for_mobile w v [] ∧
    jit_pass_optimize_for_mobile d [] = runAllPasses d := by
  constructor
  · unfold optimize_for_mobile_noSel
    rw [h]
  · unfold jit_pass_optimize_for_mobile runAllPasses
    have he : (fun (g : Graph) (pf : MobileOptimizerType × (Graph → Graph)) =>
        if passEnabled [] pf.1 then pf.2 g else g) = fun g pf => pf.2 g := by
      funext g pf
      simp [passEnabled]
    rw [he]

/-- Witness for `empty_selector_equiv_omitted` at the Scenario A world and
module. -/
theorem empty_selector_equiv_omitted_witness :
    wA.defaultSel = [] ∧
    (optimize_for_mobile_noSel wA (.scriptModule 0) = optimize_for_mobile wA (.scriptModule 0) [] ∧
     jit_pass_optimize_for_mobile mA [] = runAllPasses mA) :=
  ⟨rfl, empty_selector_equiv_omitted wA (.scriptModule 0) mA rfl⟩

/-- C8, counterexample: the first finding `generate_mobile_module_lints`
produces for the Scenario A module has no `"code"` field at all — its
discriminant field is keyed `"name"` and holds the string name of the
`LintCode` member, not the enumeration value. -/
theorem finding_lacks_code_field :
    (moduleLints mA).head?.getD [] = bundledInputFinding ∧
    ((moduleLints mA).head?.getD []).lookup "code" = none ∧
    ((moduleLints mA).head?.getD []).lookup "name" = some LintCode.BUNDLED_INPUT.name :=
  ⟨rfl, rfl, rfl⟩

/-- Shape of the bundled-input finding. -/
theorem bundledInputFinding_shape :
    ∃ c : LintCode, ∃ msg : String, bundledInputFinding = [("name", c.name), ("message", msg)] :=
  ⟨.BUNDLED_INPUT, _, rfl⟩

/-- Shape of a requires-grad finding. -/
theorem requiresGradFinding_shape (n : String) :
    ∃ c : LintCode, ∃ msg : String, requiresGradFinding n = [("name", c.name), ("message", msg)] :=
  ⟨.REQUIRES_GRAD, _, rfl⟩

/-- Shape of a dropout finding. -/
theorem dropoutFinding_shape (op : String) :
    ∃ c : LintCode, ∃ msg : String, dropoutFinding op = [("name", c.name), ("message", msg)] :=
  ⟨.DROPOUT, _, rfl⟩

/-- Shape of a batch-norm finding. -/
theorem batchnormFinding_shape (op : String) :
    ∃ c : LintCode, ∃ msg : String, batchnormFinding op = [("name", c.name), ("message", msg)] :=
  ⟨.BATCHNORM, _, rfl⟩

/-- C8, amended: every finding produced by the lint pass is a two-entry
record whose first entry is keyed `"name"` and holds the string name of a
member of the closed enumeration `LintCode` (`BUNDLED_INPUT`,
`REQUIRES_GRAD`, `DROPOUT`, `BATCHNORM`), and whose second entry is keyed
`"message"` and holds a string. -/
theorem lint_finding_shape (m : ModuleData) (f : PyDict) (h : f ∈ moduleLints m) :
    ∃ c : LintCode, ∃ msg : String, f = [("name", c.name), ("message", msg)] := by
  unfold moduleLints at h
  rcases List.mem_append.1 h with h | h
  · rcases List.mem_append.1 h with h | h
    · cases hb : m.hasBundledInputsAttr <;> rw [hb] at h <;> simp at h
      rw [h]
      exact bundledInputFinding_shape
    · rcases List.mem_filterMap.1 h with ⟨p, hp, hf⟩
      split at hf
      · rw [← Option.some.inj hf]
        exact requiresGradFinding_shape p.1
      · exact Option.noConfusion hf
  · rcases List.mem_flatMap.1 h with ⟨op, hop, hf⟩
    unfold opFindings at hf
    rcases List.mem_append.1 hf with hf | hf
    · split at hf
      · simp only [List.mem_singleton] at hf
        rw [hf]
        exact dropoutFinding_shape op
      · exact absurd hf (List.not_mem_nil f)
    · split at hf
      · simp only [List.mem_singleton] at hf
        rw [hf]
        exact batchnormFinding_shape op
      · exact absurd hf (List.not_mem_nil f)

/-- Witness for `lint_finding_shape` at the Scenario A module and its first
finding. -/
theorem lint_finding_shape_witness :
    bundledInputFinding ∈ moduleLints mA ∧
    (∃ c : LintCode, ∃ msg : String, bundledInputFinding = [("name", c.name), ("message", msg)]) :=
  ⟨by decide, lint_finding_shape mA bundledInputFinding (by decide)⟩

/-- C10: the operator loop is a single interleaved pass checking dropout
then batch-norm per name: for an operator name containing both `"dropout"`
and `"batch_norm"`, the lint list contains two findings for that one name,
the `DROPOUT` finding immediately before the `BATCHNORM` finding. -/
theorem dropout_batchnorm_interleaved (m : ModuleData) (op : String)
    (hmem : op ∈ m.graph) (hd : containsSub op "dropout" = true)
    (hb : containsSub op "batch_norm" = true) :
    ∃ l1 l2, moduleLints m = l1 ++ ([dropoutFinding op, batchnormFinding op] ++ l2) := by
  obtain ⟨s, t, hg⟩ := List.append_of_mem hmem
  have hop : opFindings op = [dropoutFinding op, batchnormFinding op] := by
    simp [opFindings, hd, hb]
  refine ⟨(if !m.hasBundledInputsAttr then [bundledInputFinding] else []) ++
      ((m.namedParameters.filterMap (fun p => if p.2 then some (requiresGradFinding p.1) else none)) ++
       s.flatMap opFindings),
      t.flatMap opFindings, ?_⟩
  simp only [moduleLints, export_opnames, hg, List.flatMap_append, List.flatMap_cons, hop,
    List.append_assoc]

/-- Witness for `dropout_batchnorm_interleaved` at a module whose single
operator name contains both substrings. -/
theorem dropout_batchnorm_interleaved_witness :
    ("custom::dropout_batch_norm" ∈ mBoth.graph) ∧
    containsSub "custom::dropout_batch_norm" "dropout" = true ∧
    containsSub "custom::dropout_batch_norm" "batch_norm" = true ∧
    (∃ l1 l2, moduleLints mBoth
        = l1 ++ ([dropoutFinding "custom::dropout_batch_norm",
                  batchnormFinding "custom::dropout_batch_norm"] ++ l2)) :=
  ⟨by decide, by decide, by decide,
    dropout_batchnorm_interleaved mBoth "custom::dropout_batch_norm" (by decide) (by decide) (by decide)⟩
